import Mathlib

/-!
Shallow embedding of the `collector` package of ninnemana/hue-exporter.

The embedding follows the current variant of the collector
(`Gatherer`, `lights` / `groups` / `sensors` jobs, the observer
functions), modelling the OpenTelemetry meter and the huego bridge as
explicit environments: a fetch is an `Except`-valued field of `Bridge`,
and a gauge registration (`meter.NewInt64GaugeObserver`) either succeeds
or yields an error string, decided per metric-family name by `Meter`.
An observer callback is embedded as the pure list of observations it
feeds to `res.Observe`, in call order.
-/

namespace HueExporter

/-- A label value, as built by `attribute.Bool` / `attribute.Int` /
`attribute.String` on the Go side. -/
inductive AttrVal where
  | bool (b : Bool)
  | int (i : Int)
  | str (s : String)
deriving DecidableEq, Repr

/-- One key/value label of an observation. -/
structure Attr where
  key : String
  val : AttrVal
deriving DecidableEq, Repr

/-- One call to `res.Observe`: the gauge value and the labels passed with it. -/
structure Obs where
  value : Int
  labels : List Attr
deriving DecidableEq, Repr

/-- `huego.State` as used by the collector: the `On` flag and the
brightness `Bri` (a `uint8` in Go, hence 0–255). -/
structure LightState where
  isOn : Bool
  bri : Nat
deriving DecidableEq, Repr

/-- `huego.Light` as used by the collector: numeric `ID` and `State`. -/
structure Light where
  id : Int
  state : LightState
deriving DecidableEq, Repr

/-- `huego.Group` as used by the collector: `ID`, `Name`, the member
light ids (`Lights`, strings on the Go side), and the group `State`. -/
structure Group where
  id : Int
  name : String
  lights : List String
  isOn : Bool
  bri : Nat
deriving DecidableEq, Repr

/-- `huego.NewLight`: names of newly discovered lights and the
`LastScan` timestamp string. -/
structure NewLight where
  lights : List String
  lastScan : String
deriving DecidableEq, Repr

/-- `huego.Sensor` as used by the collector: `Type` and `ID`. -/
structure Sensor where
  sensorType : String
  id : Int
deriving DecidableEq, Repr

/-- `lightGroup.lightExists`: whether the group's member list contains
`strconv.Itoa(id)`. -/
def lightGroupLightExists (g : Group) (id : Int) : Bool :=
  g.lights.any (fun light => light == toString id)

/-- `lightGroups.lightExists`: scan the fetched groups in order and
return the first one containing the light id, else `none`. -/
def lightGroupsLightExists (gs : List Group) (id : Int) : Option Group :=
  match gs with
  | [] => none
  | g :: rest =>
      if lightGroupLightExists g id then some g else lightGroupsLightExists rest id

/-- The `assignedGroup` string computed in the body of `lightObserver` /
`lightBrightnessObserver`: the first matching group's name, or the zero
value `""` when no fetched group contains the light. -/
def assignedGroup (gs : List Group) (id : Int) : String :=
  match lightGroupsLightExists gs id with
  | some g => g.name
  | none => ""

/-- The labels shared by the `light` and `light_brightness` observations
of one light: `on`, `id`, `group`. -/
def lightLabels (gs : List Group) (l : Light) : List Attr :=
  [⟨"on", AttrVal.bool l.state.isOn⟩,
   ⟨"id", AttrVal.int l.id⟩,
   ⟨"group", AttrVal.str (assignedGroup gs l.id)⟩]

/-- `lightObserver`: the observations its callback emits. Empty batch:
a single `Observe(0)` with no labels; otherwise one `Observe(1, labels)`
per light in batch order. -/
def lightObserver (lights : List Light) (gs : List Group) : List Obs :=
  if lights.length = 0 then [⟨0, []⟩]
  else lights.map (fun l => ⟨1, lightLabels gs l⟩)

/-- `lightBrightnessObserver`: like `lightObserver` but the value is the
light's brightness. -/
def lightBrightnessObserver (lights : List Light) (gs : List Group) : List Obs :=
  if lights.length = 0 then [⟨0, []⟩]
  else lights.map (fun l => ⟨(l.state.bri : Int), lightLabels gs l⟩)

/-- `newLightObserver`: empty batch yields a single `Observe(0)` carrying
only the `lastScan` label; otherwise one `Observe(1, name, lastScan)` per
new light. -/
def newLightObserver (v : NewLight) : List Obs :=
  if v.lights.length = 0 then [⟨0, [⟨"lastScan", AttrVal.str v.lastScan⟩]⟩]
  else v.lights.map (fun l =>
    ⟨1, [⟨"name", AttrVal.str l⟩, ⟨"lastScan", AttrVal.str v.lastScan⟩]⟩)

/-- `groupObserver`: empty batch yields a single unlabelled `Observe(0)`;
otherwise one `Observe(1, on, id, bri, name)` per group. -/
def groupObserver (gs : List Group) : List Obs :=
  if gs.length = 0 then [⟨0, []⟩]
  else gs.map (fun g =>
    ⟨1, [⟨"on", AttrVal.bool g.isOn⟩,
         ⟨"id", AttrVal.int g.id⟩,
         ⟨"bri", AttrVal.int g.bri⟩,
         ⟨"name", AttrVal.str g.name⟩]⟩)

/-- `sensorObserver`: empty batch yields a single unlabelled `Observe(0)`;
otherwise one `Observe(1, type, id)` per sensor. -/
def sensorObserver (ss : List Sensor) : List Obs :=
  if ss.length = 0 then [⟨0, []⟩]
  else ss.map (fun s =>
    ⟨1, [⟨"type", AttrVal.str s.sensorType⟩, ⟨"id", AttrVal.int s.id⟩]⟩)

/-- The huego bridge, seen through the fetch calls the jobs make in one
cycle: each fetch either returns its entities or fails with an error. -/
structure Bridge where
  getGroups : Except String (List Group)
  getLights : Except String (List Light)
  getNewLights : Except String NewLight
  getSensors : Except String (List Sensor)

/-- The meter, seen through `NewInt64GaugeObserver`: registration of a
metric-family name either succeeds (`none`) or fails with an error
string (`some e`). -/
structure Meter where
  register : String → Option String

/-- A metric family registered with the meter during one job cycle:
the family name and the observations its callback would emit. -/
structure Published where
  name : String
  obs : List Obs
deriving DecidableEq, Repr

/-- Outcome of one job's `Collect` closure: the families registered
(published) before the closure returned, in registration order, and the
error it returned (`none` on success). -/
structure CollectResult where
  published : List Published
  error : Option String
deriving DecidableEq, Repr

/-- `lights.Collect`: fetch groups, fetch lights, register `light`, then
`light_brightness`, fetch new lights, register `new_light`; any failure
returns immediately (registration errors wrapped with a family message),
leaving whatever was registered so far in place. -/
def lightsCollect (b : Bridge) (m : Meter) : CollectResult :=
  match b.getGroups with
  | .error e => ⟨[], some e⟩
  | .ok hueGroups =>
    match b.getLights with
    | .error e => ⟨[], some e⟩
    | .ok lights =>
      match m.register "light" with
      | some e => ⟨[], some ("failed to collect light count: " ++ e)⟩
      | none =>
        let p1 : List Published := [⟨"light", lightObserver lights hueGroups⟩]
        match m.register "light_brightness" with
        | some e => ⟨p1, some ("failed to collect light brightness: " ++ e)⟩
        | none =>
          let p2 := p1 ++ [⟨"light_brightness", lightBrightnessObserver lights hueGroups⟩]
          match b.getNewLights with
          | .error e => ⟨p2, some e⟩
          | .ok newLights =>
            match m.register "new_light" with
            | some e => ⟨p2, some ("failed to collect new light count: " ++ e)⟩
            | none => ⟨p2 ++ [⟨"new_light", newLightObserver newLights⟩], none⟩

/-- `groups.Collect`: fetch groups, register the `group` family. -/
def groupsCollect (b : Bridge) (m : Meter) : CollectResult :=
  match b.getGroups with
  | .error e => ⟨[], some e⟩
  | .ok gs =>
    match m.register "group" with
    | some e => ⟨[], some ("failed to collect group count: " ++ e)⟩
    | none => ⟨[⟨"group", groupObserver gs⟩], none⟩

/-- `sensors.Collect`: fetch sensors, register the `sensors` family.
The source wraps a registration failure with the message
`failed to collect group count` (and logs `failed to record group
count`), naming the group family, not the sensors one. -/
def sensorsCollect (b : Bridge) (m : Meter) : CollectResult :=
  match b.getSensors with
  | .error e => ⟨[], some e⟩
  | .ok ss =>
    match m.register "sensors" with
    | some e => ⟨[], some ("failed to collect group count: " ++ e)⟩
    | none => ⟨[⟨"sensors", sensorObserver ss⟩], none⟩

/-- What the post-cycle `select` in `Gatherer.Run` resolves to: the
ticker fired, or the context's `Done` channel was ready, carrying the
value `ctx.Err()` returns at that point. -/
inductive SelectOutcome where
  | tick
  | ctxDone (e : Option String)
deriving DecidableEq, Repr

/-- One log record emitted by `Gatherer.Run`. -/
inductive LogEntry where
  | jobFailed (e : String)
  | cancelled (e : String)
deriving DecidableEq, Repr

/-- The environment one loop iteration runs in: the per-job results of
this cycle's `errgroup` (in the order the errgroup surfaces them) and
which arm of the `select` becomes ready afterwards. -/
structure CycleInput where
  jobErrs : List (Option String)
  sel : SelectOutcome
deriving DecidableEq, Repr

/-- `errgroup.Wait`: the first non-nil error among the jobs that ran,
modelled as first in the list order of the cycle's results. -/
def firstErr : List (Option String) → Option String
  | [] => none
  | some e :: _ => some e
  | none :: rest => firstErr rest

/-- Observable progress of the `Run` loop: loop iterations begun, total
`job.Collect` closures handed to the errgroup, and the log records the
loop wrote, in order. -/
structure RunState where
  cyclesStarted : Nat
  jobLaunches : Nat
  logs : List LogEntry
deriving DecidableEq, Repr

/-- The fresh `RunState` at the moment `Run` is entered. -/
def initRunState : RunState := ⟨0, 0, []⟩

/-- The `job failed to collect metrics` record a cycle writes after
`grp.Wait`, when some job errored. -/
def jobFailureLog (c : CycleInput) : List LogEntry :=
  match firstErr c.jobErrs with
  | some e => [LogEntry.jobFailed e]
  | none => []

/-- One iteration of the `for` loop in `Gatherer.Run` with `numJobs`
jobs configured: launch all jobs, wait, log the first job error if any,
then resolve the `select`. Returns the state afterwards and `some e`
when the iteration returned `ctx.Err() = e` from `Run`, `none` when the
ticker fired and the loop continues. -/
def runCycle (numJobs : Nat) (st : RunState) (c : CycleInput) :
    RunState × Option (Option String) :=
  let st1 : RunState :=
    { cyclesStarted := st.cyclesStarted + 1
      jobLaunches := st.jobLaunches + numJobs
      logs := st.logs ++ jobFailureLog c }
  match c.sel with
  | SelectOutcome.tick => (st1, none)
  | SelectOutcome.ctxDone e =>
      (( { st1 with logs := st1.logs ++
            (match e with
             | some e0 => [LogEntry.cancelled e0]
             | none => []) } : RunState), some e)

/-- `Gatherer.Run`, driven by a finite trace of cycle environments:
iterate `runCycle` until an iteration returns, or the trace runs out
(outer `none`: the loop is still running). -/
def gathererRun (numJobs : Nat) : RunState → List CycleInput →
    RunState × Option (Option String)
  | st, [] => (st, none)
  | st, c :: rest =>
    match runCycle numJobs st c with
    | (st1, some r) => (st1, some r)
    | (st1, none) => gathererRun numJobs st1 rest

/-- A logger handle; only its presence (non-nil pointer) matters to the
collector. -/
structure TraceLogger where
  tag : String
deriving DecidableEq, Repr

/-- A meter handle obtained from a `MeterProvider`. -/
structure MeterHandle where
  name : String
deriving DecidableEq, Repr

/-- A Prometheus exporter handle (old collector variant). -/
structure ExporterHandle where
  tag : String
deriving DecidableEq, Repr

/-- `HueConfig`: bridge IP and API username. -/
structure HueConfig where
  ip : String
  username : String
deriving DecidableEq, Repr

/-- The three `CollectJob` values `NewGatherer` installs. -/
inductive JobKind where
  | lights
  | groups
  | sensors
deriving DecidableEq, Repr

/-- The `Gatherer` struct of the current variant: nilable collaborator
pointers, the ticker interval (milliseconds) and the job list. -/
structure GathererState where
  log : Option TraceLogger
  meter : Option MeterHandle
  tickerMs : Nat
  hue : Option HueConfig
  jobs : List JobKind
deriving DecidableEq, Repr

/-- A functional `Option` as passed to `NewGatherer`. `withLogger` and
`withExporter` carry the (possibly nil) handle the caller passes;
`withExporter` sets the meter from the provider, `withHueConfig` builds
the bridge handle from the config. -/
inductive GathererOpt where
  | withLogger (l : Option TraceLogger)
  | withTicker (ms : Nat)
  | withExporter (m : Option MeterHandle)
  | withHueConfig (cfg : HueConfig)
deriving DecidableEq, Repr

/-- Apply one option, exactly as each `With...` closure mutates the
under-construction `Gatherer`. -/
def applyOpt (g : GathererState) : GathererOpt → GathererState
  | GathererOpt.withLogger l => { g with log := l }
  | GathererOpt.withTicker ms => { g with tickerMs := ms }
  | GathererOpt.withExporter m => { g with meter := m }
  | GathererOpt.withHueConfig cfg => { g with hue := some cfg }

/-- The message of `ErrInvalidLogger`. -/
def errInvalidLogger : String := "the provided logger is not valid"

/-- The message of `ErrInvalidExporter` (old variant only). -/
def errInvalidExporter : String := "the provided *prometheus.Exporter is not valid"

/-- `Gatherer.valid` of the current variant: only the logger is
checked. -/
def gathererValid (g : GathererState) : Option String :=
  if g.log = none then some errInvalidLogger else none

/-- The zero-value `Gatherer` `NewGatherer` starts from: a 5-second
ticker, everything else nil/empty. -/
def initGatherer : GathererState :=
  { log := none, meter := none, tickerMs := 5000, hue := none, jobs := [] }

/-- `NewGatherer`: apply the options in order, validate, then install
the three jobs. On validation failure no `Collector` is returned, only
the error. -/
def newGatherer (opts : List GathererOpt) : Except String GathererState :=
  let g := opts.foldl applyOpt initGatherer
  match gathererValid g with
  | some e => Except.error e
  | none =>
      Except.ok { g with jobs := [JobKind.lights, JobKind.groups, JobKind.sensors] }

/-- The `Gatherer` struct of the old variant, whose `valid` also checks
the Prometheus exporter. Only the fields `valid` reads are modelled. -/
structure GathererStateOld where
  log : Option TraceLogger
  exporter : Option ExporterHandle
deriving DecidableEq, Repr

/-- `Gatherer.valid` of the old variant: the logger, then the
exporter. -/
def gathererValidOld (g : GathererStateOld) : Option String :=
  if g.log = none then some errInvalidLogger
  else if g.exporter = none then some errInvalidExporter
  else none

section ObserverLemmas

/-- Helper: a batch with an element at index `i` is not the empty batch,
so the observers take the per-entity branch, and the `i`-th observation
comes from the `i`-th light. -/
theorem lightObserver_getElem (lights : List Light) (gs : List Group)
    (i : Nat) (l : Light) (h : lights[i]? = some l) :
    (lightObserver lights gs)[i]? = some ⟨1, lightLabels gs l⟩ := by
  have hne : lights.length ≠ 0 := by
    intro h0
    rw [List.length_eq_zero] at h0
    subst h0
    simp at h
  unfold lightObserver
  rw [if_neg hne, List.getElem?_map, h]
  rfl

/-- Helper: same as `lightObserver_getElem` for the brightness family. -/
theorem lightBrightnessObserver_getElem (lights : List Light) (gs : List Group)
    (i : Nat) (l : Light) (h : lights[i]? = some l) :
    (lightBrightnessObserver lights gs)[i]? =
      some ⟨(l.state.bri : Int), lightLabels gs l⟩ := by
  have hne : lights.length ≠ 0 := by
    intro h0
    rw [List.length_eq_zero] at h0
    subst h0
    simp at h
  unfold lightBrightnessObserver
  rw [if_neg hne, List.getElem?_map, h]
  rfl

/-- Helper: when no fetched group contains the id, the scan returns
`none`. -/
theorem lightGroupsLightExists_eq_none (gs : List Group) (id : Int)
    (h : ∀ g, g ∈ gs → lightGroupLightExists g id = false) :
    lightGroupsLightExists gs id = none := by
  induction gs with
  | nil => rfl
  | cons g rest ih =>
      unfold lightGroupsLightExists
      rw [h g (List.mem_cons_self g rest)]
      simp only [Bool.false_eq_true, if_false]
      exact ih (fun g0 hg0 => h g0 (List.mem_cons_of_mem g hg0))

/-- Helper: the scan returns the first group of the list that contains
the id. -/
theorem lightGroupsLightExists_first (gs1 gs2 : List Group) (g : Group) (id : Int)
    (hg : lightGroupLightExists g id = true)
    (hpre : ∀ g0, g0 ∈ gs1 → lightGroupLightExists g0 id = false) :
    lightGroupsLightExists (gs1 ++ g :: gs2) id = some g := by
  induction gs1 with
  | nil =>
      unfold lightGroupsLightExists
      simp [hg]
  | cons g0 rest ih =>
      unfold lightGroupsLightExists
      rw [List.cons_append]
      simp only
      rw [hpre g0 (List.mem_cons_self g0 rest)]
      simp only [Bool.false_eq_true, if_false]
      exact ih (fun g1 hg1 => hpre g1 (List.mem_cons_of_mem g0 hg1))

/-- Helper: when every group of the list that contains the id equals
`g`, and `g` is a member and contains the id, the scan returns `g`. -/
theorem lightGroupsLightExists_unique (gs : List Group) (g : Group) (id : Int)
    (hmem : g ∈ gs) (hg : lightGroupLightExists g id = true)
    (huniq : ∀ g0, g0 ∈ gs → lightGroupLightExists g0 id = true → g0 = g) :
    lightGroupsLightExists gs id = some g := by
  induction gs with
  | nil => cases hmem
  | cons g0 rest ih =>
      unfold lightGroupsLightExists
      cases h0 : lightGroupLightExists g0 id with
      | true =>
          rw [if_pos rfl]
          exact congrArg some (huniq g0 (List.mem_cons_self g0 rest) h0)
      | false =>
          simp only [Bool.false_eq_true, if_false]
          have hgr : g ∈ rest := by
            rcases List.mem_cons.mp hmem with h | h
            · subst h
              rw [hg] at h0
              cases h0
            · exact h
          exact ih hgr
            (fun g1 hg1 h1 => huniq g1 (List.mem_cons_of_mem g0 hg1) h1)

end ObserverLemmas

/-- C3: every empty entity batch makes the recorder emit exactly one
observation with value 0 and no identifying labels: the light,
brightness, group and sensor recorders emit `Observe(0)` with no labels
at all, and the new-light recorder emits `Observe(0)` carrying only the
batch metadata label `lastScan` — no entity-identifying `name` (or `id`)
label. -/
theorem recorders_empty_batch_zero (gs : List Group) :
    lightObserver [] gs = [⟨0, []⟩] ∧
    lightBrightnessObserver [] gs = [⟨0, []⟩] ∧
    groupObserver [] = [⟨0, []⟩] ∧
    sensorObserver [] = [⟨0, []⟩] ∧
    ∀ scan, newLightObserver ⟨[], scan⟩ =
      [⟨0, [⟨"lastScan", AttrVal.str scan⟩]⟩] :=
  ⟨rfl, rfl, rfl, rfl, fun _ => rfl⟩

/-- C9: when the context is already done as `Run` is entered, the first
iteration still launches every job and waits for them, because the only
context check is the `select` after the join: exactly one cycle runs
(cycle count up by one, all `numJobs` jobs launched) and `Run` then
returns the context's error. -/
theorem run_done_context_still_runs_one_cycle (numJobs : Nat) (st : RunState)
    (jobErrs : List (Option String)) (e : Option String)
    (rest : List CycleInput) :
    (gathererRun numJobs st (⟨jobErrs, SelectOutcome.ctxDone e⟩ :: rest)).2 = some e ∧
    (gathererRun numJobs st (⟨jobErrs, SelectOutcome.ctxDone e⟩ :: rest)).1.cyclesStarted =
      st.cyclesStarted + 1 ∧
    (gathererRun numJobs st (⟨jobErrs, SelectOutcome.ctxDone e⟩ :: rest)).1.jobLaunches =
      st.jobLaunches + numJobs :=
  ⟨rfl, rfl, rfl⟩

/-- C6: on a non-empty batch of N lights the recorder emits exactly N
observations, one per entity in batch order (duplicates included — the
statement never assumes distinct ids), each carrying the light's `id`
and `on` state in its labels, and the brightness family carries the
light's brightness as the observation value under the same labels. -/
theorem recorders_one_obs_per_light (lights : List Light) (gs : List Group)
    (h : lights ≠ []) :
    (lightObserver lights gs).length = lights.length ∧
    (lightBrightnessObserver lights gs).length = lights.length ∧
    ∀ (i : Nat) (l : Light), lights[i]? = some l →
      (lightObserver lights gs)[i]? =
        some (Obs.mk 1 [⟨"on", AttrVal.bool l.state.isOn⟩,
                        ⟨"id", AttrVal.int l.id⟩,
                        ⟨"group", AttrVal.str (assignedGroup gs l.id)⟩]) ∧
      (lightBrightnessObserver lights gs)[i]? =
        some (Obs.mk (l.state.bri : Int)
              [⟨"on", AttrVal.bool l.state.isOn⟩,
               ⟨"id", AttrVal.int l.id⟩,
               ⟨"group", AttrVal.str (assignedGroup gs l.id)⟩]) := by
  have hne : lights.length ≠ 0 := by
    intro h0
    exact h (List.length_eq_zero.mp h0)
  refine ⟨?_, ?_, ?_⟩
  · unfold lightObserver
    rw [if_neg hne, List.length_map]
  · unfold lightBrightnessObserver
    rw [if_neg hne, List.length_map]
  · intro i l hl
    exact ⟨lightObserver_getElem lights gs i l hl,
           lightBrightnessObserver_getElem lights gs i l hl⟩

/-- Closed witness for C6: a two-light batch with duplicate ids yields
two observations with the expected labels and brightness values. -/
theorem recorders_one_obs_per_light_witness :
    (lightObserver [⟨7, ⟨true, 254⟩⟩, ⟨7, ⟨false, 3⟩⟩] []).length = 2 ∧
    (lightObserver [⟨7, ⟨true, 254⟩⟩, ⟨7, ⟨false, 3⟩⟩] [])[1]? =
      some ⟨1, [⟨"on", AttrVal.bool false⟩,
                ⟨"id", AttrVal.int 7⟩,
                ⟨"group", AttrVal.str (assignedGroup [] 7)⟩]⟩ ∧
    (lightBrightnessObserver [⟨7, ⟨true, 254⟩⟩, ⟨7, ⟨false, 3⟩⟩] [])[0]? =
      some ⟨(254 : Int), [⟨"on", AttrVal.bool true⟩,
                          ⟨"id", AttrVal.int 7⟩,
                          ⟨"group", AttrVal.str (assignedGroup [] 7)⟩]⟩ := by
  have h := recorders_one_obs_per_light
    [⟨7, ⟨true, 254⟩⟩, ⟨7, ⟨false, 3⟩⟩] [] (by decide)
  exact ⟨h.1, (h.2.2 1 ⟨7, ⟨false, 3⟩⟩ rfl).1, (h.2.2 0 ⟨7, ⟨true, 254⟩⟩ rfl).2⟩

/-- C7: for a light whose id lies in some fetched group, the emitted
observation's `group` label is that group's name (stated for a batch
whose matching group is unique, so "that group" is well defined); for a
light in no fetched group, the `group` label is the empty string. -/
theorem recorder_group_label (lights : List Light) (gs : List Group)
    (i : Nat) (l : Light) (hl : lights[i]? = some l) :
    ((∀ g, g ∈ gs → lightGroupLightExists g l.id = false) →
      ∃ o, (lightObserver lights gs)[i]? = some o ∧
        Attr.mk "group" (AttrVal.str "") ∈ o.labels) ∧
    ∀ g, g ∈ gs → lightGroupLightExists g l.id = true →
      (∀ g0, g0 ∈ gs → lightGroupLightExists g0 l.id = true → g0 = g) →
      ∃ o, (lightObserver lights gs)[i]? = some o ∧
        Attr.mk "group" (AttrVal.str g.name) ∈ o.labels := by
  constructor
  · intro hnone
    refine ⟨⟨1, lightLabels gs l⟩, lightObserver_getElem lights gs i l hl, ?_⟩
    have ha : assignedGroup gs l.id = "" := by
      unfold assignedGroup
      rw [lightGroupsLightExists_eq_none gs l.id hnone]
    unfold lightLabels
    rw [ha]
    simp
  · intro g hmem hg huniq
    refine ⟨⟨1, lightLabels gs l⟩, lightObserver_getElem lights gs i l hl, ?_⟩
    have ha : assignedGroup gs l.id = g.name := by
      unfold assignedGroup
      rw [lightGroupsLightExists_unique gs g l.id hmem hg huniq]
    unfold lightLabels
    rw [ha]
    simp

/-- Closed witness for C7: one light in "Group A", one in no group. -/
theorem recorder_group_label_witness :
    (∃ o, (lightObserver [⟨1, ⟨true, 10⟩⟩] [⟨5, "Group A", ["1"], true, 0⟩])[0]? =
        some o ∧ Attr.mk "group" (AttrVal.str "Group A") ∈ o.labels) ∧
    ∃ o, (lightObserver [⟨2, ⟨false, 10⟩⟩] [⟨5, "Group A", ["1"], true, 0⟩])[0]? =
        some o ∧ Attr.mk "group" (AttrVal.str "") ∈ o.labels := by
  constructor
  · exact (recorder_group_label [⟨1, ⟨true, 10⟩⟩] [⟨5, "Group A", ["1"], true, 0⟩]
      0 ⟨1, ⟨true, 10⟩⟩ rfl).2 ⟨5, "Group A", ["1"], true, 0⟩ (by decide) (by decide)
      (by decide)
  · exact (recorder_group_label [⟨2, ⟨false, 10⟩⟩] [⟨5, "Group A", ["1"], true, 0⟩]
      0 ⟨2, ⟨false, 10⟩⟩ rfl).1 (by decide)

/-- C8: the light recorder is a pure function of the batch and group
index — in this embedding it is a total function, so evaluating it twice
on the same input yields equal observation sequences — and on a
non-empty batch its output is index-by-index the image of the input, so
observation order is exactly the batch's insertion order. -/
theorem recorder_deterministic_insertion_order (lights : List Light)
    (gs : List Group) :
    lightObserver lights gs = lightObserver lights gs ∧
    (lights ≠ [] →
      (lightObserver lights gs).length = lights.length ∧
      ∀ (i : Nat), (lightObserver lights gs)[i]? =
        (lights[i]?).map (fun l => Obs.mk 1 (lightLabels gs l))) := by
  refine ⟨rfl, fun h => ⟨?_, ?_⟩⟩
  · have hne : lights.length ≠ 0 := fun h0 => h (List.length_eq_zero.mp h0)
    unfold lightObserver
    rw [if_neg hne, List.length_map]
  · intro i
    have hne : lights.length ≠ 0 := fun h0 => h (List.length_eq_zero.mp h0)
    unfold lightObserver
    rw [if_neg hne]
    exact List.getElem?_map _ lights i

/-- Closed witness for C8: on a concrete two-light batch the output is
pointwise the image of the input at every index. -/
theorem recorder_deterministic_insertion_order_witness :
    (lightObserver [⟨1, ⟨true, 5⟩⟩, ⟨2, ⟨false, 9⟩⟩] []).length = 2 ∧
    (lightObserver [⟨1, ⟨true, 5⟩⟩, ⟨2, ⟨false, 9⟩⟩] [])[1]? =
      (([⟨1, ⟨true, 5⟩⟩, ⟨2, ⟨false, 9⟩⟩] : List Light)[1]?).map
        (fun l => Obs.mk 1 (lightLabels [] l)) := by
  have h := (recorder_deterministic_insertion_order
    [⟨1, ⟨true, 5⟩⟩, ⟨2, ⟨false, 9⟩⟩] []).2 (by decide)
  exact ⟨h.1, h.2 1⟩

/-- C10: when a light's id lies in more than one fetched group, the
label resolved for its observations is the name of the first matching
group in fetch order: for any decomposition of the group list whose
prefix has no match and whose next element matches, the lookup returns
that element and the emitted `group` label is its name — regardless of
any later matching groups. -/
theorem recorder_first_matching_group (gs1 gs2 : List Group) (g : Group)
    (id : Int) (hg : lightGroupLightExists g id = true)
    (hpre : ∀ g0, g0 ∈ gs1 → lightGroupLightExists g0 id = false) :
    lightGroupsLightExists (gs1 ++ g :: gs2) id = some g ∧
    assignedGroup (gs1 ++ g :: gs2) id = g.name ∧
    ∀ lights (i : Nat) (l : Light), lights[i]? = some l → l.id = id →
      (lightObserver lights (gs1 ++ g :: gs2))[i]? =
        some ⟨1, [⟨"on", AttrVal.bool l.state.isOn⟩,
                  ⟨"id", AttrVal.int l.id⟩,
                  ⟨"group", AttrVal.str g.name⟩]⟩ := by
  have hfind := lightGroupsLightExists_first gs1 gs2 g id hg hpre
  have ha : assignedGroup (gs1 ++ g :: gs2) id = g.name := by
    unfold assignedGroup
    rw [hfind]
  refine ⟨hfind, ha, ?_⟩
  intro lights i l hl hid
  have h := lightObserver_getElem lights (gs1 ++ g :: gs2) i l hl
  rw [h]
  unfold lightLabels
  rw [hid, ha]

/-- Closed witness for C10: a light in both "First" and "Second" gets
the label "First". -/
theorem recorder_first_matching_group_witness :
    lightGroupsLightExists
        [⟨1, "First", ["3"], true, 0⟩, ⟨2, "Second", ["3"], true, 0⟩] 3 =
      some ⟨1, "First", ["3"], true, 0⟩ ∧
    (lightObserver [⟨3, ⟨true, 1⟩⟩]
        [⟨1, "First", ["3"], true, 0⟩, ⟨2, "Second", ["3"], true, 0⟩])[0]? =
      some ⟨1, [⟨"on", AttrVal.bool true⟩,
                ⟨"id", AttrVal.int 3⟩,
                ⟨"group", AttrVal.str "First"⟩]⟩ := by
  have h := recorder_first_matching_group []
    [⟨2, "Second", ["3"], true, 0⟩] ⟨1, "First", ["3"], true, 0⟩ 3
    (by decide) (by intro g0 hg0; simp at hg0)
  exact ⟨h.1, h.2.2 [⟨3, ⟨true, 1⟩⟩] 0 ⟨3, ⟨true, 1⟩⟩ rfl rfl⟩

/-- C2 counterexample: groups and lights fetch succeed, the new-lights
fetch fails. The cycle does return that error, but the `light` and
`light_brightness` families were registered before the new-lights fetch,
so partial metrics from the earlier successful fetches are published,
not discarded — refuting "gauge registration for each metric family
happens only after all of that job's fetches have succeeded". -/
theorem lightsCollect_partial_publish_on_newlights_failure :
    (lightsCollect
        ⟨Except.ok [], Except.ok [⟨1, ⟨true, 100⟩⟩],
         Except.error "bridge unreachable", Except.ok []⟩
        ⟨fun _ => none⟩).error = some "bridge unreachable" ∧
    (lightsCollect
        ⟨Except.ok [], Except.ok [⟨1, ⟨true, 100⟩⟩],
         Except.error "bridge unreachable", Except.ok []⟩
        ⟨fun _ => none⟩).published =
      [⟨"light", lightObserver [⟨1, ⟨true, 100⟩⟩] []⟩,
       ⟨"light_brightness", lightBrightnessObserver [⟨1, ⟨true, 100⟩⟩] []⟩] ∧
    (lightsCollect
        ⟨Except.ok [], Except.ok [⟨1, ⟨true, 100⟩⟩],
         Except.error "bridge unreachable", Except.ok []⟩
        ⟨fun _ => none⟩).published ≠ [] :=
  ⟨rfl, rfl, by decide⟩

/-- C2 amended: a failure in any one fetch of the lights job still
aborts the cycle and returns that error; a groups- or lights-fetch
failure publishes nothing, but the `light` and `light_brightness`
families are registered right after those two fetches and before the
new-lights fetch, so a new-lights failure leaves exactly those two
families already published. -/
theorem lightsCollect_abort_and_publish_order (b : Bridge) (m : Meter) :
    (∀ e, b.getGroups = Except.error e →
       lightsCollect b m = ⟨[], some e⟩) ∧
    (∀ gs e, b.getGroups = Except.ok gs → b.getLights = Except.error e →
       lightsCollect b m = ⟨[], some e⟩) ∧
    (∀ gs ls e, b.getGroups = Except.ok gs → b.getLights = Except.ok ls →
       m.register "light" = none → m.register "light_brightness" = none →
       b.getNewLights = Except.error e →
       lightsCollect b m =
         ⟨[⟨"light", lightObserver ls gs⟩,
           ⟨"light_brightness", lightBrightnessObserver ls gs⟩], some e⟩) := by
  refine ⟨?_, ?_, ?_⟩
  · intro e hg
    unfold lightsCollect
    rw [hg]
  · intro gs e hg hl
    unfold lightsCollect
    rw [hg, hl]
  · intro gs ls e hg hl hr1 hr2 hn
    unfold lightsCollect
    rw [hg, hl, hr1, hr2, hn]
    rfl

/-- Closed witness for the amended C2: each of the three abort shapes at
a concrete bridge/meter. -/
theorem lightsCollect_abort_and_publish_order_witness :
    lightsCollect ⟨Except.error "boom", Except.ok [], Except.ok ⟨[], ""⟩,
        Except.ok []⟩ ⟨fun _ => none⟩ = ⟨[], some "boom"⟩ ∧
    lightsCollect ⟨Except.ok [], Except.ok [⟨2, ⟨false, 7⟩⟩],
        Except.error "later", Except.ok []⟩ ⟨fun _ => none⟩ =
      ⟨[⟨"light", lightObserver [⟨2, ⟨false, 7⟩⟩] []⟩,
        ⟨"light_brightness", lightBrightnessObserver [⟨2, ⟨false, 7⟩⟩] []⟩],
       some "later"⟩ := by
  constructor
  · exact (lightsCollect_abort_and_publish_order
      ⟨Except.error "boom", Except.ok [], Except.ok ⟨[], ""⟩, Except.ok []⟩
      ⟨fun _ => none⟩).1 "boom" rfl
  · exact (lightsCollect_abort_and_publish_order
      ⟨Except.ok [], Except.ok [⟨2, ⟨false, 7⟩⟩], Except.error "later",
       Except.ok []⟩ ⟨fun _ => none⟩).2.2 [] [⟨2, ⟨false, 7⟩⟩] "later"
      rfl rfl rfl rfl rfl

/-- C4: the sensors job's registration-failure path contradicts the
family-identifying-wrap contract: a failed registration of the
`sensors` family is wrapped (and logged) as `failed to collect group
count`, naming the group family instead — a copy-paste slip in the
source, evaluated here at a concrete failing meter. The abort itself
does occur: nothing is published and the wrapped error is returned. -/
theorem sensorsCollect_wrap_names_wrong_family :
    sensorsCollect
        ⟨Except.ok [], Except.ok [], Except.ok ⟨[], ""⟩, Except.ok [⟨"ZLLSwitch", 4⟩]⟩
        ⟨fun name => if name = "sensors" then some "registration denied" else none⟩ =
      ⟨[], some "failed to collect group count: registration denied"⟩ := by
  rfl

/-- C1: the `Run` loop never terminates because a job errored. If the
loop returns at all, it returns the context's error value `r` from the
first cycle whose `select` saw the context done, every earlier cycle
having ticked — whatever errors its jobs produced. Conversely, on any
trace in which the ticker always fires, the loop never returns, every
cycle is scheduled, and each cycle's first job error is logged (the
logs are exactly the concatenation of the per-cycle failure records). -/
theorem run_job_errors_never_terminate (numJobs : Nat) (st : RunState)
    (inputs : List CycleInput) :
    (∀ (r : Option String), (gathererRun numJobs st inputs).2 = some r →
       ∃ pre c post, inputs = pre ++ c :: post ∧
         c.sel = SelectOutcome.ctxDone r ∧
         ∀ c0, c0 ∈ pre → c0.sel = SelectOutcome.tick) ∧
    ((∀ c, c ∈ inputs → c.sel = SelectOutcome.tick) →
       (gathererRun numJobs st inputs).2 = none ∧
       (gathererRun numJobs st inputs).1.cyclesStarted =
         st.cyclesStarted + inputs.length ∧
       (gathererRun numJobs st inputs).1.logs =
         st.logs ++ (inputs.map jobFailureLog).flatten) := by
  induction inputs generalizing st with
  | nil =>
      refine ⟨?_, ?_⟩
      · intro r hr
        simp [gathererRun] at hr
      · intro _
        refine ⟨rfl, rfl, by simp [gathererRun]⟩
  | cons c rest ih =>
      refine ⟨?_, ?_⟩
      · intro r hr
        cases hsel : c.sel with
        | tick =>
            have hred : gathererRun numJobs st (c :: rest) =
                gathererRun numJobs
                  ⟨st.cyclesStarted + 1, st.jobLaunches + numJobs,
                   st.logs ++ jobFailureLog c⟩ rest := by
              simp only [gathererRun, runCycle, hsel]
            rw [hred] at hr
            obtain ⟨pre, c1, post, hsplit, hc1, hpre⟩ := (ih _).1 r hr
            refine ⟨c :: pre, c1, post, by simp [hsplit], hc1, ?_⟩
            intro c0 h0
            rcases List.mem_cons.mp h0 with h | h
            · rw [h, hsel]
            · exact hpre c0 h
        | ctxDone e =>
            have hred : (gathererRun numJobs st (c :: rest)).2 = some e := by
              simp only [gathererRun, runCycle, hsel]
            rw [hred] at hr
            obtain rfl : e = r := Option.some.inj hr
            exact ⟨[], c, rest, rfl, hsel, fun c0 h0 => absurd h0 (List.not_mem_nil c0)⟩
      · intro hall
        have hsel : c.sel = SelectOutcome.tick :=
          hall c (List.mem_cons_self c rest)
        have hred : gathererRun numJobs st (c :: rest) =
            gathererRun numJobs
              ⟨st.cyclesStarted + 1, st.jobLaunches + numJobs,
               st.logs ++ jobFailureLog c⟩ rest := by
          simp only [gathererRun, runCycle, hsel]
        have hrest := (ih
          ⟨st.cyclesStarted + 1, st.jobLaunches + numJobs,
           st.logs ++ jobFailureLog c⟩).2
          (fun c0 h0 => hall c0 (List.mem_cons_of_mem c h0))
        refine ⟨?_, ?_, ?_⟩
        · rw [hred]
          exact hrest.1
        · rw [hred, hrest.2.1]
          simp only [List.length_cons]
          omega
        · rw [hred, hrest.2.2]
          simp [List.append_assoc]

/-- Closed witness for C1: a cycle whose job fails, followed by a tick,
leaves the loop running with the failure logged; a trace ending in a
done context returns the context's error. -/
theorem run_job_errors_never_terminate_witness :
    (gathererRun 3 initRunState
      [⟨[some "fetch failed"], SelectOutcome.tick⟩]).2 = none ∧
    (gathererRun 3 initRunState
      [⟨[some "fetch failed"], SelectOutcome.tick⟩]).1.cyclesStarted = 1 ∧
    (gathererRun 3 initRunState
      [⟨[some "fetch failed"], SelectOutcome.tick⟩]).1.logs =
      [LogEntry.jobFailed "fetch failed"] := by
  have h := (run_job_errors_never_terminate 3 initRunState
    [⟨[some "fetch failed"], SelectOutcome.tick⟩]).2 (by decide)
  exact ⟨h.1, h.2.1, by rw [h.2.2]; rfl⟩

/-- C5: `NewGatherer` validates its required collaborators and returns
an error (a value, not a panic — the embedding is a total function)
exactly when the logger is missing after all options are applied; on any
error no `Collector` is produced, so `Run` can never start. In the old
variant `valid` additionally rejects a missing Prometheus exporter, so
construction succeeds only with both a logger and an exporter/meter. -/
theorem newGatherer_validates_collaborators (opts : List GathererOpt) :
    (∀ e, newGatherer opts = Except.error e →
       e = errInvalidLogger ∧ (opts.foldl applyOpt initGatherer).log = none ∧
       ∀ g, ¬ newGatherer opts = Except.ok g) ∧
    ((opts.foldl applyOpt initGatherer).log = none →
       newGatherer opts = Except.error errInvalidLogger) ∧
    (∀ gOld : GathererStateOld,
       (gOld.log = none → gathererValidOld gOld = some errInvalidLogger) ∧
       (gOld.log ≠ none → gOld.exporter = none →
          gathererValidOld gOld = some errInvalidExporter) ∧
       (gathererValidOld gOld = none ↔
          gOld.log ≠ none ∧ gOld.exporter ≠ none)) := by
  refine ⟨?_, ?_, ?_⟩
  · intro e he
    cases hlog : (opts.foldl applyOpt initGatherer).log with
    | none =>
        have herr : newGatherer opts = Except.error errInvalidLogger := by
          simp [newGatherer, gathererValid, hlog]
        rw [herr] at he
        refine ⟨(Except.error.inj he).symm, rfl, ?_⟩
        intro g hok
        rw [herr] at hok
        cases hok
    | some l =>
        have hok : newGatherer opts =
            Except.ok { opts.foldl applyOpt initGatherer with
              jobs := [JobKind.lights, JobKind.groups, JobKind.sensors] } := by
          simp [newGatherer, gathererValid, hlog]
        rw [hok] at he
        cases he
  · intro hlog
    simp [newGatherer, gathererValid, hlog]
  · intro gOld
    refine ⟨?_, ?_, ?_⟩
    · intro hlog
      simp [gathererValidOld, hlog]
    · intro hlog hexp
      simp [gathererValidOld, hlog, hexp]
    · constructor
      · intro hv
        by_contra hc
        rw [not_and_or] at hc
        rcases hc with hc | hc
        · rw [not_ne_iff] at hc
          simp [gathererValidOld, hc] at hv
        · rw [not_ne_iff] at hc
          rcases hlog : gOld.log with _ | l
          · simp [gathererValidOld, hlog] at hv
          · simp [gathererValidOld, hlog, hc] at hv
      · intro ⟨h1, h2⟩
        simp [gathererValidOld, h1, h2]

/-- Closed witness for C5: without a logger option construction fails
with `ErrInvalidLogger`; the old `valid` rejects a logger-only gatherer
with `ErrInvalidExporter`. -/
theorem newGatherer_validates_collaborators_witness :
    newGatherer [GathererOpt.withExporter (some ⟨"hue"⟩)] =
      Except.error errInvalidLogger ∧
    gathererValidOld ⟨some ⟨"zap"⟩, none⟩ = some errInvalidExporter := by
  have h := newGatherer_validates_collaborators
    [GathererOpt.withExporter (some ⟨"hue"⟩)]
  exact ⟨h.2.1 (by decide), (h.2.2 ⟨some ⟨"zap"⟩, none⟩).2.1 (by decide) rfl⟩

end HueExporter
